import Mathlib

/-!
Shallow embedding of `scalapy/routines.py` (the operations `eigh`, `cholesky`
and `dot` over distributed matrices), together with models of the pieces of
the repository that `routines.py` uses but that are not part of the excerpt
(`core.DistributedMatrix`, `util`, and the `lowlevel` backend wrappers),
modelled from the specification where noted.

Matrix entries are modelled as rationals (the Python code works with machine
floats; none of the verified properties depend on rounding).  Backend
numerical outputs (eigenvalue spectra, factor contents, product contents) are
oracle parameters: the routines thread them through exactly as the Python
code threads through whatever ScaLAPACK writes into the buffers.
-/

/-- The four supported element variants (`sc_dtype` tags `S`, `D`, `C`, `Z`:
real single, real double, complex single, complex double). -/
inductive Dtype where
  | S
  | D
  | C
  | Z
deriving DecidableEq, Repr

/-- Modelled from the spec: `util.real_equiv` (not in src/) maps an element
variant to its real-equivalent type: real32 for real32/complex64 inputs,
real64 for real64/complex128 inputs. -/
def real_equiv : Dtype → Dtype
  | .S => .S
  | .D => .D
  | .C => .S
  | .Z => .D

/-- Python exception values raised by the routines, tagged by the exception
class the source uses: bare `Exception` (eigh's failure path),
`core.ScalapyException` (all of dot's validation errors),
`core.ScalapackException` (cholesky's failure path), and the shape error
raised by `util.assert_square` (modelled from the spec, see `assert_square`). -/
inductive PyErr where
  | exception (msg : String)
  | scalapyException (msg : String)
  | scalapackException (msg : String)
  | shapeError (msg : String)
deriving DecidableEq, Repr

/-- The Python exception class of a raised error, as a name. -/
def PyErr.cls : PyErr → String
  | .exception _ => "Exception"
  | .scalapyException _ => "ScalapyException"
  | .scalapackException _ => "ScalapackException"
  | .shapeError _ => "ShapeError"

/-- Modelled from the spec: the process grid wraps a 2D arrangement of
processes; `shape` is the grid extent `(R, C)` and `pos` is the calling
process's `(row, col)` coordinate (the grid context carries the caller's
rank, so per-process data such as local buffers depends on it). -/
structure ProcessGrid where
  shape : Nat × Nat
  pos : Nat × Nat
deriving DecidableEq, Repr

/-- Modelled from the spec: `core.DistributedMatrix` (not in src/) — one
logical matrix of extent `global_shape`, distributed 2D block-cyclically
with tile size `block_shape` over `grid`, with element variant `dtype` and
this process's local buffer `local_array` (indexed by local row/column). -/
structure DistributedMatrix where
  global_shape : Nat × Nat
  block_shape : Nat × Nat
  grid : ProcessGrid
  dtype : Dtype
  local_array : Nat → Nat → ℚ

/-- The ScaLAPACK type tag of a matrix (the key into the call tables). -/
def DistributedMatrix.sc_dtype (A : DistributedMatrix) : Char :=
  match A.dtype with
  | .S => 'S'
  | .D => 'D'
  | .C => 'C'
  | .Z => 'Z'

/-- Modelled from the spec: the block-cyclic local-to-global index map.
Global index `i` lives on grid row `(i / B) % R` at local position
`(i / (B*R)) * B + i % B`; inverting, local position `j` on grid coordinate
`p` (with tile size `B` and `R` grid rows) holds global index
`((j / B) * R + p) * B + j % B`.  Symmetric for columns. -/
def l2g (B R p j : Nat) : Nat :=
  ((j / B) * R + p) * B + j % B

/-- Modelled from the spec: `DistributedMatrix.indices` (not in src/) returns
the pair of global row-index / column-index arrays for the local buffer
(same shape as the local buffer, numpy-broadcast style), a pure function of
the distribution parameters and the calling process's grid coordinate. -/
def DistributedMatrix.indices (A : DistributedMatrix) :
    (Nat → Nat → Nat) × (Nat → Nat → Nat) :=
  (fun i _ => l2g A.block_shape.1 A.grid.shape.1 A.grid.pos.1 i,
   fun _ j => l2g A.block_shape.2 A.grid.shape.2 A.grid.pos.2 j)

/-- Modelled from the spec: `DistributedMatrix.copy` deep-copies the local
buffer into independent storage; as a value it is identical to the source
matrix, and the routines below account for the aliasing difference when they
report the caller-visible final state of the argument. -/
def DistributedMatrix.copy (A : DistributedMatrix) : DistributedMatrix :=
  { A with local_array := A.local_array }

/-- Modelled from the spec: `DistributedMatrix.empty_like` builds a matrix
with the same global shape, block shape, grid and element variant as `other`
and an uninitialized local buffer (the arbitrary initial contents are passed
in as `garbage`); no side effect on `other`. -/
def DistributedMatrix.empty_like (other : DistributedMatrix)
    (garbage : Nat → Nat → ℚ) : DistributedMatrix :=
  { other with local_array := garbage }

/-- Modelled from the spec: `util.assert_square` (not in src/) fails with a
shape error when the matrix is not square. -/
def assert_square (A : DistributedMatrix) : Except PyErr Unit :=
  if A.global_shape.1 = A.global_shape.2 then .ok ()
  else .error (.shapeError "Matrix must be square")

/-- A global (non-distributed) numpy array of `size` entries; `data i = none`
models an entry `np.empty` left uninitialized and never written. -/
structure NpArray where
  size : Nat
  dtype : Dtype
  data : Nat → Option ℚ

/-- One invocation of a backend (ScaLAPACK) routine, recording the variant
tag it was resolved to and the scalar/flag arguments it was passed. -/
inductive BackendEvent where
  | syevr (variant : Dtype) (task erange uplo : String) (N : Nat)
      (vl vu : ℚ) (low high : Nat)
  | potrf (variant : Dtype) (uplo : String) (N : Nat)
  | gemm (variant : Dtype) (transA transB : String) (m n k : Nat)
      (alpha beta : ℚ)
deriving DecidableEq, Repr

/-- Outcome of a call to `dot`: the returned value (or raised exception), the
caller-visible final states of the argument matrices, and the trace of
backend invocations made. -/
structure DotOut where
  result : Except PyErr DistributedMatrix
  callerA : DistributedMatrix
  callerB : DistributedMatrix
  trace : List BackendEvent

/-- `dot(A, B, transA, transB)` from `routines.py`.  `gemmOut` is the local
product buffer the backend writes into `C` (the `pXgemm` call is modelled
from the spec: it computes `C = alpha*op(A)*op(B) + beta*C`, writing only
`C`'s buffer and returning a status that the source discards — hence
`gemmInfo` is accepted and never consulted, and `A`, `B` pass through to the
caller unchanged). -/
def dot (gemmOut : Nat → Nat → ℚ) (gemmInfo : Int)
    (A B : DistributedMatrix) (transA transB : String) : DotOut :=
  if transA ∉ (["N", "T", "H", "C"] : List String) then
    { result := .error (.scalapyException "Trans argument for matrix A invalid"),
      callerA := A, callerB := B, trace := [] }
  else if transB ∉ (["N", "T", "H", "C"] : List String) then
    { result := .error (.scalapyException "Trans argument for matrix B invalid"),
      callerA := A, callerB := B, trace := [] }
  else if A.dtype ≠ B.dtype then
    { result := .error (.scalapyException "Matrices must have same type"),
      callerA := A, callerB := B, trace := [] }
  else
    let m := if transA ∈ (["N", "C"] : List String) then A.global_shape.1 else A.global_shape.2
    let n := if transB ∈ (["N", "C"] : List String) then B.global_shape.2 else B.global_shape.1
    let k := if transA ∈ (["N", "C"] : List String) then A.global_shape.2 else A.global_shape.1
    let l := if transB ∈ (["N", "C"] : List String) then B.global_shape.1 else B.global_shape.2
    if l ≠ k then
      { result := .error (.scalapyException "Matrix shapes are incompatible."),
        callerA := A, callerB := B, trace := [] }
    else
      let C : DistributedMatrix :=
        { global_shape := (m, n), block_shape := A.block_shape,
          grid := A.grid, dtype := A.dtype, local_array := fun _ _ => 0 }
      let Cfinal := { C with local_array := gemmOut }
      { result := .ok Cfinal, callerA := A, callerB := B,
        trace := [.gemm A.dtype transA transB m n k 1 0] }

/-- Outcome of a call to `eigh`: the returned `(evals, evecs)` pair (or the
raised exception), the caller-visible final state of the argument `A`, and
the trace of backend invocations made. -/
structure EighOut where
  result : Except PyErr (NpArray × DistributedMatrix)
  callerA : DistributedMatrix
  trace : List BackendEvent

/-- `eigh(A, lower, overwrite_a, eigvals)` from `routines.py`.

The backend call (`pssyevr`/`pdsyevr`/`pcheevr`/`pzheevr`, resolved from the
call table by `A.sc_dtype`) is modelled from the spec: with `task='V'` it
computes eigenpairs of the (global) operand; with `erange='A'` it writes the
full ascending spectrum, and with `erange='I'` the eigenvalues at 1-indexed
positions `low..high` of that spectrum, into the first entries of the
`evals` buffer; it fills the distributed `evecs` output with the local slice
of the global eigenvector matrix; it destroys the operand's contents; and it
returns `(info, m, nz)` of which the source only tests `info < 0`.  The
backend's numerical output is threaded in as oracles: `spec` (the ascending
spectrum of the operand), `Vg` (the global eigenvector matrix), `junk` (what
the destroyed operand buffer ends up holding), `info` (the reported status);
`evecsGarbage` is the uninitialized content of `empty_like(A)`. -/
def eigh (spec : Nat → ℚ) (Vg : Nat → Nat → ℚ) (junk : Nat → Nat → ℚ)
    (info : Int) (evecsGarbage : Nat → Nat → ℚ)
    (A : DistributedMatrix) (lower overwrite_a : Bool)
    (eigvals : Option (Nat × Nat)) : EighOut :=
  match assert_square A with
  | .error e => { result := .error e, callerA := A, trace := [] }
  | .ok _ =>
    let Aop := if overwrite_a then A else A.copy
    let uplo := if lower then "L" else "U"
    let N := Aop.global_shape.1
    let lowHighRange : Nat × Nat × String :=
      match eigvals with
      | none => (1, 1, "A")
      | some lh => (lh.1 + 1, lh.2 + 1, "I")
    let low := lowHighRange.1
    let high := lowHighRange.2.1
    let erange := lowHighRange.2.2
    let evecs0 := DistributedMatrix.empty_like Aop evecsGarbage
    let evals0 : NpArray :=
      { size := N, dtype := real_equiv A.dtype, data := fun _ => none }
    let m := if erange = "A" then N else high + 1 - low
    let evalsOut : NpArray :=
      { evals0 with data := fun i => if i < m then some (spec (low - 1 + i)) else none }
    let evecsOut :=
      { evecs0 with
        local_array := fun i j =>
          Vg (l2g Aop.block_shape.1 Aop.grid.shape.1 Aop.grid.pos.1 i)
             (l2g Aop.block_shape.2 Aop.grid.shape.2 Aop.grid.pos.2 j) }
    let AopAfter := { Aop with local_array := junk }
    let event : BackendEvent := .syevr A.dtype "V" erange uplo N 1 1 low high
    if info < 0 then
      { result := .error (.exception "Failure."),
        callerA := if overwrite_a then AopAfter else A, trace := [event] }
    else
      { result := .ok (evalsOut, evecsOut),
        callerA := if overwrite_a then AopAfter else A, trace := [event] }

/-- The call `eigh(A)` with every optional parameter left at its default
(the def line reads `def eigh(A, lower=True, overwrite_a=True, eigvals=None)`). -/
def eighDefaults (spec : Nat → ℚ) (Vg : Nat → Nat → ℚ) (junk : Nat → Nat → ℚ)
    (info : Int) (evecsGarbage : Nat → Nat → ℚ) (A : DistributedMatrix) : EighOut :=
  eigh spec Vg junk info evecsGarbage A true true none

/-- Outcome of a call to `cholesky`: the returned factor (or the raised
exception), the caller-visible final state of the argument `A`, and the
trace of backend invocations made. -/
structure CholOut where
  result : Except PyErr DistributedMatrix
  callerA : DistributedMatrix
  trace : List BackendEvent

/-- `cholesky(A, lower, overwrite_a, zero_triangle)` from `routines.py`.

The backend call (`pspotrf`/`pdpotrf`/`pcpotrf`/`pzpotrf`, resolved from the
call table by `A.sc_dtype`) is modelled from the spec: it overwrites the
operand's local buffer in place with the requested triangular factor
(leaving the other triangle untouched/stale) and returns a status the
source tests with `info < 0`.  Its numerical output is threaded in as the
oracle `fact` (the operand's local buffer contents right after the backend
call) together with the reported status `info`. -/
def cholesky (fact : Nat → Nat → ℚ) (info : Int)
    (A : DistributedMatrix) (lower overwrite_a zero_triangle : Bool) : CholOut :=
  match assert_square A with
  | .error e => { result := .error e, callerA := A, trace := [] }
  | .ok _ =>
    let Aop := if overwrite_a then A else A.copy
    let uplo := if lower then "L" else "U"
    let N := Aop.global_shape.1
    let event : BackendEvent := .potrf A.dtype uplo N
    let AopAfter := { Aop with local_array := fact }
    if info < 0 then
      { result := .error (.scalapackException "Failure."),
        callerA := if overwrite_a then AopAfter else A, trace := [event] }
    else
      let ri := AopAfter.indices.1
      let ci := AopAfter.indices.2
      let mask : Nat → Nat → Bool :=
        if lower then fun i j => ci i j ≤ ri i j else fun i j => ci i j ≥ ri i j
      let Afinal :=
        if zero_triangle then
          { AopAfter with
            local_array := fun i j =>
              AopAfter.local_array i j * (if mask i j then 1 else 0) }
        else AopAfter
      { result := .ok Afinal,
        callerA := if overwrite_a then Afinal else A, trace := [event] }

/-- The call `cholesky(A)` with every optional parameter left at its default
(the def line reads
`def cholesky(A, lower=False, overwrite_a=False, zero_triangle=True)`). -/
def choleskyDefaults (fact : Nat → Nat → ℚ) (info : Int)
    (A : DistributedMatrix) : CholOut :=
  cholesky fact info A false false true

/-- The claim's (spec-side) description of an operand's effective row count
in `dot`: the native row count when the transform is none (`"N"`) or
conjugate-only (`"C"`), the native column count otherwise. -/
def effRows (X : DistributedMatrix) (trans : String) : Nat :=
  if trans = "N" ∨ trans = "C" then X.global_shape.1 else X.global_shape.2

/-- The claim's (spec-side) description of an operand's effective column
count in `dot`: the native column count when the transform is none (`"N"`)
or conjugate-only (`"C"`), the native row count otherwise. -/
def effCols (X : DistributedMatrix) (trans : String) : Nat :=
  if trans = "N" ∨ trans = "C" then X.global_shape.2 else X.global_shape.1

/-- The size of the eigenvalue array a successful `eigh` call returned
(0 when the call raised). -/
def eighEvalsSize (o : EighOut) : Nat :=
  match o.result with
  | .ok p => p.1.size
  | .error _ => 0

/-- The exception class a `dot` call raised (`"ok"` when it returned). -/
def dotErrCls (o : DotOut) : String :=
  match o.result with
  | .error e => e.cls
  | .ok _ => "ok"

/-- A 1×1 process grid seen from its only process. -/
def gridOne : ProcessGrid := { shape := (1, 1), pos := (0, 0) }

/-- A concrete 2×2 real-double distributed matrix on a 1×1 grid. -/
def sampleD : DistributedMatrix :=
  { global_shape := (2, 2), block_shape := (1, 1), grid := gridOne,
    dtype := .D, local_array := fun _ _ => 1 }

/-- A concrete 2×2 real-single distributed matrix on a 1×1 grid. -/
def sampleS : DistributedMatrix :=
  { global_shape := (2, 2), block_shape := (1, 1), grid := gridOne,
    dtype := .S, local_array := fun _ _ => 1 }

/-- A concrete 3×4 real-double distributed matrix on a 1×1 grid. -/
def sample34 : DistributedMatrix :=
  { global_shape := (3, 4), block_shape := (1, 1), grid := gridOne,
    dtype := .D, local_array := fun _ _ => 1 }

/-- A concrete 5×6 real-double distributed matrix on a 1×1 grid. -/
def sample56 : DistributedMatrix :=
  { global_shape := (5, 6), block_shape := (1, 1), grid := gridOne,
    dtype := .D, local_array := fun _ _ => 1 }

/-- The all-zero local buffer, used as a concrete oracle in witnesses. -/
def zfun : Nat → Nat → ℚ := fun _ _ => 0

/-- A concrete ascending spectrum oracle, used in witnesses. -/
def specId : Nat → ℚ := fun i => (i : ℚ)

/-- The effective operand `A if overwrite_a else A.copy()` equals `A` as a
value (copying only changes storage identity, which the routines' `callerA`
field accounts for). -/
theorem operand_select_eq (A : DistributedMatrix) (ow : Bool) :
    (if ow then A else A.copy) = A := by
  cases ow <;> rfl

/-- C5: with `overwrite_a=False`, neither `eigh` nor `cholesky` ever mutates
the caller's `A` — the effective operand is a copy, so the caller-visible
state of `A` after the call equals its state before, on every path
(validation failure, backend failure, and success alike). -/
theorem overwrite_false_never_mutates
    (spec : Nat → ℚ) (Vg junk eg fact : Nat → Nat → ℚ) (info info2 : Int)
    (A : DistributedMatrix) (lower lower2 zt : Bool)
    (eigvals : Option (Nat × Nat)) :
    (eigh spec Vg junk info eg A lower false eigvals).callerA = A ∧
    (cholesky fact info2 A lower2 false zt).callerA = A := by
  constructor
  · unfold eigh
    cases h : assert_square A with
    | error e => simp
    | ok u => simp only; split <;> rfl
  · unfold cholesky
    cases h : assert_square A with
    | error e => simp
    | ok u => simp only; split <;> rfl

/-- C4: on backend success, `cholesky` with `zero_triangle=True` returns a
matrix whose entries strictly on the non-selected side of the diagonal
(global column index past the row index for `lower=True`, before it
otherwise, read off `local_to_global_indices`) are exactly zero, while the
entries of the selected triangle, diagonal included, are exactly what the
backend wrote into the local buffer. -/
theorem cholesky_zeroes_other_triangle
    (fact : Nat → Nat → ℚ) (info : Int) (A : DistributedMatrix)
    (lower ow : Bool)
    (hsq : A.global_shape.1 = A.global_shape.2) (hinfo : ¬ info < 0) :
    ∃ U, (cholesky fact info A lower ow true).result = .ok U ∧
      (∀ i j, (if lower then A.indices.1 i j < A.indices.2 i j
               else A.indices.2 i j < A.indices.1 i j) →
        U.local_array i j = 0) ∧
      (∀ i j, (if lower then A.indices.2 i j ≤ A.indices.1 i j
               else A.indices.1 i j ≤ A.indices.2 i j) →
        U.local_array i j = fact i j) := by
  unfold cholesky
  rw [operand_select_eq]
  rw [assert_square, if_pos hsq]
  simp only [hinfo, if_false, if_true, reduceIte]
  refine ⟨_, rfl, ?_, ?_⟩ <;>
    · intro i j h
      cases lower <;>
        simp_all [DistributedMatrix.indices, Nat.not_le.mpr, Nat.not_lt,
          le_of_lt, mul_ite, mul_one, mul_zero]

/-- C10: the two operations default differently.  `eigh(A)` with no flags
runs with `lower=True` (the backend is passed uplo `"L"`) and
`overwrite_a=True`, so the caller's `A` ends up holding whatever the backend
left in the destroyed operand buffer (in-place mutation); `cholesky(A)` with
no flags runs with `lower=False` (uplo `"U"`), `overwrite_a=False` (the
caller's `A` is untouched) and `zero_triangle=True` (the returned upper
factor has every strictly-lower entry zeroed). -/
theorem default_flag_values
    (spec : Nat → ℚ) (Vg junk eg fact : Nat → Nat → ℚ) (info : Int)
    (A : DistributedMatrix)
    (hsq : A.global_shape.1 = A.global_shape.2) (hinfo : ¬ info < 0) :
    (eighDefaults spec Vg junk info eg A).callerA = { A with local_array := junk } ∧
    (eighDefaults spec Vg junk info eg A).trace =
      [.syevr A.dtype "V" "A" "L" A.global_shape.1 1 1 1 1] ∧
    (choleskyDefaults fact info A).callerA = A ∧
    (choleskyDefaults fact info A).trace = [.potrf A.dtype "U" A.global_shape.1] ∧
    ∃ U, (choleskyDefaults fact info A).result = .ok U ∧
      (∀ i j, A.indices.2 i j < A.indices.1 i j → U.local_array i j = 0) ∧
      (∀ i j, A.indices.1 i j ≤ A.indices.2 i j → U.local_array i j = fact i j) := by
  unfold eighDefaults choleskyDefaults eigh cholesky
  rw [operand_select_eq, operand_select_eq, assert_square, if_pos hsq]
  simp only [hinfo, if_false, if_true, reduceIte]
  refine ⟨by trivial, by trivial, by trivial, by trivial, _, by trivial, ?_, ?_⟩ <;>
    · intro i j h
      simp_all [DistributedMatrix.indices, Nat.not_le.mpr, Nat.not_lt,
        mul_ite, mul_one, mul_zero]

/-- Membership in the two-token list `["N","C"]` is the disjunction the
spec-side effective-dimension definitions use. -/
theorem mem_NC_iff (s : String) :
    s ∈ (["N", "C"] : List String) ↔ (s = "N" ∨ s = "C") := by
  simp

/-- On the success path the code's `m`,`n`,`k`,`l` agree with the spec-side
effective dimensions: `m = effRows A transA`, `k = effCols A transA`,
`n = effCols B transB`, `l = effRows B transB`. -/
theorem code_dims_eq_eff (X : DistributedMatrix) (t : String) :
    ((if t ∈ (["N", "C"] : List String) then X.global_shape.1 else X.global_shape.2)
      = effRows X t) ∧
    ((if t ∈ (["N", "C"] : List String) then X.global_shape.2 else X.global_shape.1)
      = effCols X t) := by
  rw [effRows, effCols]
  by_cases h : t = "N" ∨ t = "C" <;>
    simp [mem_NC_iff, h]

/-- C3: `dot` computes its effective dimensions exactly as the claim states
(native row/column counts for transforms `"N"`/`"C"`, swapped for
`"T"`/`"H"`), and — for matching element variants and valid transform
tokens — raises the shape-incompatibility `ScalapyException` with an empty
backend trace exactly when `l ≠ k`; when `l = k` it succeeds and the single
backend call receives `(m, n, k) = (effRows A, effCols B, effCols A)`. -/
theorem dot_effective_dims
    (gemmOut : Nat → Nat → ℚ) (gemmInfo : Int) (A B : DistributedMatrix)
    (transA transB : String)
    (hA : transA ∈ (["N", "T", "H", "C"] : List String))
    (hB : transB ∈ (["N", "T", "H", "C"] : List String))
    (hdt : A.dtype = B.dtype) :
    (effRows B transB ≠ effCols A transA →
      (dot gemmOut gemmInfo A B transA transB).result =
        .error (.scalapyException "Matrix shapes are incompatible.") ∧
      (dot gemmOut gemmInfo A B transA transB).trace = []) ∧
    (effRows B transB = effCols A transA →
      ∃ C, (dot gemmOut gemmInfo A B transA transB).result = .ok C ∧
        (dot gemmOut gemmInfo A B transA transB).trace =
          [.gemm A.dtype transA transB (effRows A transA) (effCols B transB)
            (effCols A transA) 1 0]) := by
  unfold dot
  rw [if_neg (not_not_intro hA), if_neg (not_not_intro hB),
    if_neg (not_not_intro hdt)]
  simp only [(code_dims_eq_eff A transA).1, (code_dims_eq_eff A transA).2,
    (code_dims_eq_eff B transB).1, (code_dims_eq_eff B transB).2]
  constructor
  · intro hne
    rw [if_pos hne]
    exact ⟨rfl, rfl⟩
  · intro heq
    rw [if_neg (not_not_intro heq)]
    exact ⟨_, rfl, rfl⟩

/-- C6: for valid inputs, `dot` returns a freshly allocated matrix `C` of
extent `effRows A × effCols B` that carries `A`'s element variant, block
shape and grid context, whose local buffer is exactly what the backend
multiply wrote; the single backend call is passed `alpha = 1.0` and
`beta = 0.0` (so `C = 1.0*op(A)*op(B) + 0.0*C`); and the caller-visible
states of `A` and `B` are unchanged. -/
theorem dot_fresh_result
    (gemmOut : Nat → Nat → ℚ) (gemmInfo : Int) (A B : DistributedMatrix)
    (transA transB : String)
    (hA : transA ∈ (["N", "T", "H", "C"] : List String))
    (hB : transB ∈ (["N", "T", "H", "C"] : List String))
    (hdt : A.dtype = B.dtype)
    (hlk : effRows B transB = effCols A transA) :
    ∃ C, (dot gemmOut gemmInfo A B transA transB).result = .ok C ∧
      C.global_shape = (effRows A transA, effCols B transB) ∧
      C.dtype = A.dtype ∧
      C.block_shape = A.block_shape ∧
      C.grid = A.grid ∧
      C.local_array = gemmOut ∧
      (dot gemmOut gemmInfo A B transA transB).trace =
        [.gemm A.dtype transA transB (effRows A transA) (effCols B transB)
          (effCols A transA) 1 0] ∧
      (dot gemmOut gemmInfo A B transA transB).callerA = A ∧
      (dot gemmOut gemmInfo A B transA transB).callerB = B := by
  unfold dot
  rw [if_neg (not_not_intro hA), if_neg (not_not_intro hB),
    if_neg (not_not_intro hdt)]
  simp only [(code_dims_eq_eff A transA).1, (code_dims_eq_eff A transA).2,
    (code_dims_eq_eff B transB).1, (code_dims_eq_eff B transB).2]
  rw [if_neg (not_not_intro hlk)]
  exact ⟨_, rfl, rfl, rfl, rfl, rfl, rfl, rfl, rfl, rfl⟩

/-- C7 (amended): `dot`'s three validation failures — invalid `transA` or
`transB` token, and mismatched element variants — are all raised as the same
exception class `core.ScalapyException` (distinguished only by message, and
the same class the shape check uses), each before any backend call. -/
theorem dot_validation_single_class
    (gemmOut : Nat → Nat → ℚ) (gemmInfo : Int) (A B : DistributedMatrix)
    (transA transB : String) :
    (transA ∉ (["N", "T", "H", "C"] : List String) →
      (dot gemmOut gemmInfo A B transA transB).result =
        .error (.scalapyException "Trans argument for matrix A invalid") ∧
      (dot gemmOut gemmInfo A B transA transB).trace = []) ∧
    (transA ∈ (["N", "T", "H", "C"] : List String) →
      transB ∉ (["N", "T", "H", "C"] : List String) →
      (dot gemmOut gemmInfo A B transA transB).result =
        .error (.scalapyException "Trans argument for matrix B invalid") ∧
      (dot gemmOut gemmInfo A B transA transB).trace = []) ∧
    (transA ∈ (["N", "T", "H", "C"] : List String) →
      transB ∈ (["N", "T", "H", "C"] : List String) →
      A.dtype ≠ B.dtype →
      (dot gemmOut gemmInfo A B transA transB).result =
        .error (.scalapyException "Matrices must have same type") ∧
      (dot gemmOut gemmInfo A B transA transB).trace = []) := by
  refine ⟨fun h1 => ?_, fun h1 h2 => ?_, fun h1 h2 h3 => ?_⟩
  · unfold dot
    rw [if_pos h1]
    exact ⟨rfl, rfl⟩
  · unfold dot
    rw [if_neg (not_not_intro h1), if_pos h2]
    exact ⟨rfl, rfl⟩
  · unfold dot
    rw [if_neg (not_not_intro h1), if_neg (not_not_intro h2), if_pos h3]
    exact ⟨rfl, rfl⟩

/-- C7 (counterexample): at concrete inputs, the error raised for an invalid
transform token, the error raised for mismatched element variants, and the
error raised for incompatible shapes all carry the same Python exception
class (`ScalapyException`) — they are not distinct error kinds. -/
theorem dot_error_kinds_cex :
    dotErrCls (dot zfun 0 sampleD sampleD "X" "N") = "ScalapyException" ∧
    dotErrCls (dot zfun 0 sampleD sampleS "N" "N") = "ScalapyException" ∧
    dotErrCls (dot zfun 0 sample34 sample56 "N" "N") = "ScalapyException" ∧
    dotErrCls (dot zfun 0 sampleD sampleD "X" "N") =
      dotErrCls (dot zfun 0 sampleD sampleS "N" "N") := by
  refine ⟨rfl, rfl, rfl, rfl⟩

/-- C9: `dot` never consults the status the backend multiply reports — its
outcome is identical for any two reported statuses, and on validated inputs
it returns the product matrix `C` unconditionally, raising nothing. -/
theorem dot_ignores_backend_status
    (gemmOut : Nat → Nat → ℚ) (info1 info2 : Int) (A B : DistributedMatrix)
    (transA transB : String)
    (hA : transA ∈ (["N", "T", "H", "C"] : List String))
    (hB : transB ∈ (["N", "T", "H", "C"] : List String))
    (hdt : A.dtype = B.dtype)
    (hlk : effRows B transB = effCols A transA) :
    dot gemmOut info1 A B transA transB = dot gemmOut info2 A B transA transB ∧
    ∃ C, (dot gemmOut info1 A B transA transB).result = .ok C := by
  refine ⟨rfl, ?_⟩
  unfold dot
  rw [if_neg (not_not_intro hA), if_neg (not_not_intro hB),
    if_neg (not_not_intro hdt)]
  simp only [(code_dims_eq_eff A transA).1, (code_dims_eq_eff A transA).2,
    (code_dims_eq_eff B transB).1, (code_dims_eq_eff B transB).2]
  rw [if_neg (not_not_intro hlk)]
  exact ⟨_, rfl⟩

/-- C8: on a square input, `eigh` raises exactly when the backend reports a
negative status, and what it raises is a bare `Exception` (the generic
computation failure); `cholesky` raises exactly when the backend reports a
negative status, and what it raises is a `ScalapackException` (the
decomposition failure); these two classes differ from each other and from
the `ScalapyException` / shape-error classes used for usage errors; and in
either case the trace holds exactly one backend call — the failure
propagates immediately, with no retry. -/
theorem backend_status_error_kinds
    (spec : Nat → ℚ) (Vg junk eg fact : Nat → Nat → ℚ) (info : Int)
    (A : DistributedMatrix) (lower ow lower2 ow2 zt : Bool)
    (eigvals : Option (Nat × Nat))
    (hsq : A.global_shape.1 = A.global_shape.2) :
    ((∃ e, (eigh spec Vg junk info eg A lower ow eigvals).result = .error e) ↔
      info < 0) ∧
    (info < 0 →
      (eigh spec Vg junk info eg A lower ow eigvals).result =
        .error (.exception "Failure.")) ∧
    ((∃ e, (cholesky fact info A lower2 ow2 zt).result = .error e) ↔
      info < 0) ∧
    (info < 0 →
      (cholesky fact info A lower2 ow2 zt).result =
        .error (.scalapackException "Failure.")) ∧
    (eigh spec Vg junk info eg A lower ow eigvals).trace.length = 1 ∧
    (cholesky fact info A lower2 ow2 zt).trace.length = 1 ∧
    PyErr.cls (.exception "Failure.") ≠ PyErr.cls (.scalapackException "Failure.") ∧
    PyErr.cls (.exception "Failure.") ≠ "ScalapyException" ∧
    PyErr.cls (.scalapackException "Failure.") ≠ "ScalapyException" ∧
    PyErr.cls (.exception "Failure.") ≠ "ShapeError" ∧
    PyErr.cls (.scalapackException "Failure.") ≠ "ShapeError" := by
  unfold eigh cholesky
  rw [assert_square, if_pos hsq]
  by_cases hi : info < 0 <;>
    simp [hi, PyErr.cls]

/-- C2: on a square input and backend success, `eigh` returns an eigenvalue
array of length `N` (`N` = the matrix order) whose element type is the
real-equivalent of `A`'s variant, together with an eigenvector matrix that
carries `A`'s global shape, block shape, grid and variant (built via
`empty_like(A)`) and whose local buffer is this process's block-cyclic slice
of the global eigenvector matrix (so it remains distributed); and the
eigenvalue array is replicated — any process's view of the same logical
matrix (same global shape and variant, any grid coordinate, any local
buffer, any uninitialized-garbage contents) receives an eigenvalue array
with identical size, element type and contents. -/
theorem eigh_output_form
    (spec : Nat → ℚ) (Vg junk eg : Nat → Nat → ℚ) (info : Int)
    (A : DistributedMatrix) (lower ow : Bool) (eigvals : Option (Nat × Nat))
    (hsq : A.global_shape.1 = A.global_shape.2) (hinfo : ¬ info < 0) :
    ∃ evals evecs,
      (eigh spec Vg junk info eg A lower ow eigvals).result = .ok (evals, evecs) ∧
      evals.size = A.global_shape.1 ∧
      evals.dtype = real_equiv A.dtype ∧
      evecs.global_shape = A.global_shape ∧
      evecs.block_shape = A.block_shape ∧
      evecs.grid = A.grid ∧
      evecs.dtype = A.dtype ∧
      (∀ i j, evecs.local_array i j =
        Vg (l2g A.block_shape.1 A.grid.shape.1 A.grid.pos.1 i)
           (l2g A.block_shape.2 A.grid.shape.2 A.grid.pos.2 j)) ∧
      (∀ (A2 : DistributedMatrix) (junk2 eg2 : Nat → Nat → ℚ)
         (evals2 : NpArray) (evecs2 : DistributedMatrix),
        A2.global_shape = A.global_shape → A2.dtype = A.dtype →
        (eigh spec Vg junk2 info eg2 A2 lower ow eigvals).result =
          .ok (evals2, evecs2) →
        evals2.size = evals.size ∧ evals2.dtype = evals.dtype ∧
          evals2.data = evals.data) := by
  unfold eigh
  rw [operand_select_eq, assert_square, if_pos hsq, if_neg hinfo]
  refine ⟨_, _, rfl, rfl, rfl, rfl, rfl, rfl, rfl, fun i j => rfl, ?_⟩
  intro A2 junk2 eg2 evals2 evecs2 hgs hdt hres
  rw [operand_select_eq, assert_square,
    if_pos (by rw [hgs]; exact hsq), if_neg hinfo] at hres
  simp only [Except.ok.injEq, Prod.mk.injEq] at hres
  obtain ⟨h1, h2⟩ := hres
  subst h1
  refine ⟨?_, ?_, ?_⟩
  · simp [hgs]
  · simp [hdt]
  · simp [hgs]

/-- C1 (counterexample): for the concrete 2×2 matrix `sampleD` and `k = 1`,
`eigh` with `eigvals=(0, 0)` returns an eigenvalue array of size 2 — the
full `np.empty(N)` allocation — not an array containing exactly `k = 1`
eigenvalues as the claim states. -/
theorem eigh_restricted_count_cex :
    eighEvalsSize (eigh specId zfun zfun 0 zfun sampleD true true (some (0, 0))) = 2 ∧
    (2 : Nat) ≠ 1 :=
  ⟨rfl, by decide⟩

/-- C1 (amended): `eigh` with `eigvals=(0, k-1)` (for `1 ≤ k ≤ N`, backend
success) returns an eigenvalue array still of length `N`, whose first `k`
entries match the first `k` entries of the unrestricted call — the `k`
smallest eigenvalues in the backend's ascending order — and whose remaining
`N - k` entries are left uninitialized. -/
theorem eigh_restricted_range
    (spec : Nat → ℚ) (Vg junk eg : Nat → Nat → ℚ) (info : Int)
    (A : DistributedMatrix) (k : Nat)
    (hsq : A.global_shape.1 = A.global_shape.2) (hinfo : ¬ info < 0)
    (hk1 : 1 ≤ k) (hkN : k ≤ A.global_shape.1)
    (hmono : ∀ i j, i ≤ j → spec i ≤ spec j) :
    ∃ evalsR evecsR evalsU evecsU,
      (eigh spec Vg junk info eg A true true (some (0, k - 1))).result =
        .ok (evalsR, evecsR) ∧
      (eigh spec Vg junk info eg A true true none).result =
        .ok (evalsU, evecsU) ∧
      evalsR.size = A.global_shape.1 ∧
      evalsU.size = A.global_shape.1 ∧
      (∀ i, i < k → evalsR.data i = some (spec i)) ∧
      (∀ i, i < k → evalsR.data i = evalsU.data i) ∧
      (∀ i, k ≤ i → evalsR.data i = none) ∧
      (∀ i j, i < k → j < A.global_shape.1 → i ≤ j → spec i ≤ spec j) := by
  unfold eigh
  rw [operand_select_eq, assert_square, if_pos hsq]
  simp only [if_neg hinfo]
  refine ⟨_, _, _, _, rfl, rfl, rfl, rfl, ?_, ?_, ?_, ?_⟩
  · intro i hik
    have hm : i < k - 1 + 1 + 1 - 1 := by omega
    simp [hm]
    omega
  · intro i hik
    have hm : i < k - 1 + 1 + 1 - 1 := by omega
    have hN : i < A.global_shape.1 := lt_of_lt_of_le hik hkN
    simp [hm, hN]
    omega
  · intro i hik
    have hm : ¬ i < k - 1 + 1 + 1 - 1 := by omega
    simp [hm]
    omega
  · intro i j hik hjN hij
    exact hmono i j hij

/-- Witness for `eigh_restricted_range` at the 2×2 matrix `sampleD`,
`k = 1`, status 0, identity spectrum. -/
theorem eigh_restricted_range_witness :
    (sampleD.global_shape.1 = sampleD.global_shape.2) ∧
    (¬ (0 : Int) < 0) ∧ (1 ≤ 1) ∧ (1 ≤ sampleD.global_shape.1) ∧
    (∀ i j, i ≤ j → specId i ≤ specId j) ∧
    (∃ evalsR evecsR evalsU evecsU,
      (eigh specId zfun zfun 0 zfun sampleD true true (some (0, 1 - 1))).result =
        .ok (evalsR, evecsR) ∧
      (eigh specId zfun zfun 0 zfun sampleD true true none).result =
        .ok (evalsU, evecsU) ∧
      evalsR.size = sampleD.global_shape.1 ∧
      evalsU.size = sampleD.global_shape.1 ∧
      (∀ i, i < 1 → evalsR.data i = some (specId i)) ∧
      (∀ i, i < 1 → evalsR.data i = evalsU.data i) ∧
      (∀ i, 1 ≤ i → evalsR.data i = none) ∧
      (∀ i j, i < 1 → j < sampleD.global_shape.1 → i ≤ j → specId i ≤ specId j)) :=
  ⟨rfl, by decide, le_refl 1, by decide,
   fun i j h => by simp only [specId]; exact_mod_cast h,
   eigh_restricted_range specId zfun zfun zfun 0 sampleD 1 rfl (by decide)
     (le_refl 1) (by decide)
     (fun i j h => by simp only [specId]; exact_mod_cast h)⟩

/-- Witness for `eigh_output_form` at the 2×2 matrix `sampleD`, status 0. -/
theorem eigh_output_form_witness :
    (sampleD.global_shape.1 = sampleD.global_shape.2) ∧
    (¬ (0 : Int) < 0) ∧
    (∃ evals evecs,
      (eigh specId zfun zfun 0 zfun sampleD true true none).result =
        .ok (evals, evecs) ∧
      evals.size = sampleD.global_shape.1 ∧
      evals.dtype = real_equiv sampleD.dtype ∧
      evecs.global_shape = sampleD.global_shape ∧
      evecs.block_shape = sampleD.block_shape ∧
      evecs.grid = sampleD.grid ∧
      evecs.dtype = sampleD.dtype ∧
      (∀ i j, evecs.local_array i j =
        zfun (l2g sampleD.block_shape.1 sampleD.grid.shape.1 sampleD.grid.pos.1 i)
           (l2g sampleD.block_shape.2 sampleD.grid.shape.2 sampleD.grid.pos.2 j)) ∧
      (∀ (A2 : DistributedMatrix) (junk2 eg2 : Nat → Nat → ℚ)
         (evals2 : NpArray) (evecs2 : DistributedMatrix),
        A2.global_shape = sampleD.global_shape → A2.dtype = sampleD.dtype →
        (eigh specId zfun junk2 0 eg2 A2 true true none).result =
          .ok (evals2, evecs2) →
        evals2.size = evals.size ∧ evals2.dtype = evals.dtype ∧
          evals2.data = evals.data)) :=
  ⟨rfl, by decide,
   eigh_output_form specId zfun zfun zfun 0 sampleD true true none rfl (by decide)⟩

/-- Witness for `dot_effective_dims` with both operands `sampleD` and both
transforms `"N"`. -/
theorem dot_effective_dims_witness :
    ("N" ∈ (["N", "T", "H", "C"] : List String)) ∧
    ("N" ∈ (["N", "T", "H", "C"] : List String)) ∧
    (sampleD.dtype = sampleD.dtype) ∧
    ((effRows sampleD "N" ≠ effCols sampleD "N" →
      (dot zfun 0 sampleD sampleD "N" "N").result =
        .error (.scalapyException "Matrix shapes are incompatible.") ∧
      (dot zfun 0 sampleD sampleD "N" "N").trace = []) ∧
    (effRows sampleD "N" = effCols sampleD "N" →
      ∃ C, (dot zfun 0 sampleD sampleD "N" "N").result = .ok C ∧
        (dot zfun 0 sampleD sampleD "N" "N").trace =
          [.gemm sampleD.dtype "N" "N" (effRows sampleD "N") (effCols sampleD "N")
            (effCols sampleD "N") 1 0])) :=
  ⟨by decide, by decide, rfl,
   dot_effective_dims zfun 0 sampleD sampleD "N" "N" (by decide) (by decide) rfl⟩

/-- Witness for `cholesky_zeroes_other_triangle` at the 2×2 matrix
`sampleD`, upper factor, status 0. -/
theorem cholesky_zeroes_other_triangle_witness :
    (sampleD.global_shape.1 = sampleD.global_shape.2) ∧
    (¬ (0 : Int) < 0) ∧
    (∃ U, (cholesky zfun 0 sampleD false false true).result = .ok U ∧
      (∀ i j, (if false then sampleD.indices.1 i j < sampleD.indices.2 i j
               else sampleD.indices.2 i j < sampleD.indices.1 i j) →
        U.local_array i j = 0) ∧
      (∀ i j, (if false then sampleD.indices.2 i j ≤ sampleD.indices.1 i j
               else sampleD.indices.1 i j ≤ sampleD.indices.2 i j) →
        U.local_array i j = zfun i j)) :=
  ⟨rfl, by decide,
   cholesky_zeroes_other_triangle zfun 0 sampleD false false rfl (by decide)⟩

/-- Witness for `dot_fresh_result` with both operands `sampleD` and both
transforms `"N"`. -/
theorem dot_fresh_result_witness :
    ("N" ∈ (["N", "T", "H", "C"] : List String)) ∧
    ("N" ∈ (["N", "T", "H", "C"] : List String)) ∧
    (sampleD.dtype = sampleD.dtype) ∧
    (effRows sampleD "N" = effCols sampleD "N") ∧
    (∃ C, (dot zfun 0 sampleD sampleD "N" "N").result = .ok C ∧
      C.global_shape = (effRows sampleD "N", effCols sampleD "N") ∧
      C.dtype = sampleD.dtype ∧
      C.block_shape = sampleD.block_shape ∧
      C.grid = sampleD.grid ∧
      C.local_array = zfun ∧
      (dot zfun 0 sampleD sampleD "N" "N").trace =
        [.gemm sampleD.dtype "N" "N" (effRows sampleD "N") (effCols sampleD "N")
          (effCols sampleD "N") 1 0] ∧
      (dot zfun 0 sampleD sampleD "N" "N").callerA = sampleD ∧
      (dot zfun 0 sampleD sampleD "N" "N").callerB = sampleD) :=
  ⟨by decide, by decide, rfl, by decide,
   dot_fresh_result zfun 0 sampleD sampleD "N" "N" (by decide) (by decide) rfl
     (by decide)⟩

/-- Witness for `dot_validation_single_class`: the invalid token `"X"`
triggers the `ScalapyException` trans error before any backend call. -/
theorem dot_validation_single_class_witness :
    ("X" ∉ (["N", "T", "H", "C"] : List String)) ∧
    ((dot zfun 0 sampleD sampleD "X" "N").result =
      .error (.scalapyException "Trans argument for matrix A invalid") ∧
    (dot zfun 0 sampleD sampleD "X" "N").trace = []) :=
  ⟨by decide,
   (dot_validation_single_class zfun 0 sampleD sampleD "X" "N").1 (by decide)⟩

/-- Witness for `backend_status_error_kinds` at the 2×2 matrix `sampleD`
with reported status `-1`. -/
theorem backend_status_error_kinds_witness :
    (sampleD.global_shape.1 = sampleD.global_shape.2) ∧
    (((∃ e, (eigh specId zfun zfun (-1) zfun sampleD true true none).result =
        .error e) ↔ (-1 : Int) < 0) ∧
    ((-1 : Int) < 0 →
      (eigh specId zfun zfun (-1) zfun sampleD true true none).result =
        .error (.exception "Failure.")) ∧
    ((∃ e, (cholesky zfun (-1) sampleD false false true).result = .error e) ↔
      (-1 : Int) < 0) ∧
    ((-1 : Int) < 0 →
      (cholesky zfun (-1) sampleD false false true).result =
        .error (.scalapackException "Failure.")) ∧
    (eigh specId zfun zfun (-1) zfun sampleD true true none).trace.length = 1 ∧
    (cholesky zfun (-1) sampleD false false true).trace.length = 1 ∧
    PyErr.cls (.exception "Failure.") ≠ PyErr.cls (.scalapackException "Failure.") ∧
    PyErr.cls (.exception "Failure.") ≠ "ScalapyException" ∧
    PyErr.cls (.scalapackException "Failure.") ≠ "ScalapyException" ∧
    PyErr.cls (.exception "Failure.") ≠ "ShapeError" ∧
    PyErr.cls (.scalapackException "Failure.") ≠ "ShapeError") :=
  ⟨rfl,
   backend_status_error_kinds specId zfun zfun zfun zfun (-1) sampleD
     true true false false true none rfl⟩

/-- Witness for `dot_ignores_backend_status`: with statuses `-1` and `0` the
outcomes coincide and the call succeeds. -/
theorem dot_ignores_backend_status_witness :
    ("N" ∈ (["N", "T", "H", "C"] : List String)) ∧
    ("N" ∈ (["N", "T", "H", "C"] : List String)) ∧
    (sampleD.dtype = sampleD.dtype) ∧
    (effRows sampleD "N" = effCols sampleD "N") ∧
    (dot zfun (-1) sampleD sampleD "N" "N" = dot zfun 0 sampleD sampleD "N" "N" ∧
    ∃ C, (dot zfun (-1) sampleD sampleD "N" "N").result = .ok C) :=
  ⟨by decide, by decide, rfl, by decide,
   dot_ignores_backend_status zfun (-1) 0 sampleD sampleD "N" "N" (by decide)
     (by decide) rfl (by decide)⟩

/-- Witness for `default_flag_values` at the 2×2 matrix `sampleD`,
status 0. -/
theorem default_flag_values_witness :
    (sampleD.global_shape.1 = sampleD.global_shape.2) ∧
    (¬ (0 : Int) < 0) ∧
    ((eighDefaults specId zfun zfun 0 zfun sampleD).callerA =
      { sampleD with local_array := zfun } ∧
    (eighDefaults specId zfun zfun 0 zfun sampleD).trace =
      [.syevr sampleD.dtype "V" "A" "L" sampleD.global_shape.1 1 1 1 1] ∧
    (choleskyDefaults zfun 0 sampleD).callerA = sampleD ∧
    (choleskyDefaults zfun 0 sampleD).trace =
      [.potrf sampleD.dtype "U" sampleD.global_shape.1] ∧
    ∃ U, (choleskyDefaults zfun 0 sampleD).result = .ok U ∧
      (∀ i j, sampleD.indices.2 i j < sampleD.indices.1 i j →
        U.local_array i j = 0) ∧
      (∀ i j, sampleD.indices.1 i j ≤ sampleD.indices.2 i j →
        U.local_array i j = zfun i j)) :=
  ⟨rfl, by decide,
   default_flag_values specId zfun zfun zfun zfun 0 sampleD rfl (by decide)⟩
